import Mathlib

/-!
Shallow embedding of `src/askama_shared/src/error.rs`: the aggregate error
type `Error` of the askama template library, its `Display` rendering, its
`std::error::Error::cause` delegation, and its `From` conversions from the
wrapped external error types.

External error types (`std::fmt::Error`, `regex::Error`,
`chrono::format::ParseError`, `serde_json::Error`, `serde_yaml::Error`) are
not part of this repository; the source only uses them through the
`std::error::Error` trait interface, i.e. a `Display` message and an optional
nested `source`.  They are therefore modelled as values carrying exactly that
interface data.
-/

namespace Askama

/-- Model of a value behind a `&dyn std::error::Error` trait object: its
textual description together with its optional nested `source`. -/
inductive DynError : Type where
  | mk (message : String) (src : Option DynError)

/-- Textual description (the `Display` output) of a trait-object error. -/
def DynError.message : DynError → String
  | .mk m _ => m

/-- Nested `source()` of a trait-object error. -/
def DynError.src : DynError → Option DynError
  | .mk _ s => s

/-- Model of `std::fmt::Error` through its error-trait interface. -/
structure FmtError where
  message : String
  src : Option DynError

/-- Model of `regex::Error` through its error-trait interface. -/
structure RegexError where
  message : String
  src : Option DynError

/-- Model of `chrono::format::ParseError` through its error-trait interface. -/
structure ChronoParseError where
  message : String
  src : Option DynError

/-- Model of `serde_json::Error` through its error-trait interface. -/
structure JsonError where
  message : String
  src : Option DynError

/-- Model of `serde_yaml::Error` through its error-trait interface. -/
structure YamlError where
  message : String
  src : Option DynError

/-- View of a payload as the trait object it is borrowed as. -/
def FmtError.toDyn (e : FmtError) : DynError := .mk e.message e.src

/-- View of a payload as the trait object it is borrowed as. -/
def RegexError.toDyn (e : RegexError) : DynError := .mk e.message e.src

/-- View of a payload as the trait object it is borrowed as. -/
def ChronoParseError.toDyn (e : ChronoParseError) : DynError := .mk e.message e.src

/-- View of a payload as the trait object it is borrowed as. -/
def JsonError.toDyn (e : JsonError) : DynError := .mk e.message e.src

/-- View of a payload as the trait object it is borrowed as. -/
def YamlError.toDyn (e : YamlError) : DynError := .mk e.message e.src

/-- Build-configuration switches: `cfg(feature = "serde_json")` and
`cfg(feature = "serde_yaml")`. -/
structure Features where
  serde_json : Bool
  serde_yaml : Bool

/-- The enum `Error` of `src/askama_shared/src/error.rs`.  The `Json` and
`Yaml` variants are conditionally compiled; this is embedded by indexing the
type by the feature switches and keeping evidence of the switch inside the
gated constructors, so that a gated variant is constructible exactly when its
feature is enabled. -/
inductive Error (feat : Features) : Type where
  | Fmt (err : FmtError)
  | RegEx (err : RegexError)
  | Chrono (err : ChronoParseError)
  | Json (h : feat.serde_json = true) (err : JsonError)
  | Yaml (h : feat.serde_yaml = true) (err : YamlError)

/-- The method `Error::cause` of `impl std::error::Error for Error`: every arm
returns `err.source()` of the wrapped payload. -/
def Error.cause {feat : Features} : Error feat → Option DynError
  | .Fmt err => err.src
  | .RegEx err => err.src
  | .Chrono err => err.src
  | .Json _ err => err.src
  | .Yaml _ err => err.src

/-- State of a `std::fmt::Formatter`: the output buffer written so far. -/
structure Formatter where
  buf : String

/-- Effect of `write!(formatter, "...")`: append the rendered text to the
output buffer. -/
def Formatter.writeStr (f : Formatter) (s : String) : Formatter :=
  ⟨f.buf ++ s⟩

/-- The method `fmt` of `impl Display for Error`: each arm writes its fixed
label followed by the payload's own `Display` output. -/
def Error.fmt {feat : Features} : Error feat → Formatter → Formatter
  | .Fmt err, f => f.writeStr ("formatting error: " ++ err.message)
  | .RegEx err, f => f.writeStr ("regex error: " ++ err.message)
  | .Chrono err, f => f.writeStr ("chrono parse error: " ++ err.message)
  | .Json _ err, f => f.writeStr ("json conversion error: " ++ err.message)
  | .Yaml _ err, f => f.writeStr ("yaml conversion error: " ++ err.message)

/-- Rendering an `Error` to a string (`to_string()` via `Display`): format
into an empty buffer. -/
def Error.describe {feat : Features} (e : Error feat) : String :=
  (e.fmt ⟨""⟩).buf

/-- The conversion `impl From<fmt::Error> for Error`. -/
def Error.fromFmt {feat : Features} (err : FmtError) : Error feat := .Fmt err

/-- The conversion `impl From<regex::Error> for Error`. -/
def Error.fromRegex {feat : Features} (err : RegexError) : Error feat := .RegEx err

/-- The conversion `impl From<chrono::format::ParseError> for Error`. -/
def Error.fromChrono {feat : Features} (err : ChronoParseError) : Error feat := .Chrono err

/-- The conversion `impl From<serde_json::Error> for Error`, compiled only
when the `serde_json` feature is enabled. -/
def Error.fromJson {feat : Features} (h : feat.serde_json = true) (err : JsonError) :
    Error feat := .Json h err

/-- The conversion `impl From<serde_yaml::Error> for Error`, compiled only
when the `serde_yaml` feature is enabled. -/
def Error.fromYaml {feat : Features} (h : feat.serde_yaml = true) (err : YamlError) :
    Error feat := .Yaml h err

/-- The five categories of the aggregate. -/
inductive Category : Type where
  | Fmt
  | RegEx
  | Chrono
  | Json
  | Yaml

/-- Discriminant of a value of the aggregate. -/
def Error.category {feat : Features} : Error feat → Category
  | .Fmt _ => .Fmt
  | .RegEx _ => .RegEx
  | .Chrono _ => .Chrono
  | .Json _ _ => .Json
  | .Yaml _ _ => .Yaml

/-- Fixed label with which the rendering of each category begins. -/
def Category.tag : Category → String
  | .Fmt => "formatting error: "
  | .RegEx => "regex error: "
  | .Chrono => "chrono parse error: "
  | .Json => "json conversion error: "
  | .Yaml => "yaml conversion error: "

/-- The list of all five category labels. -/
def tags : List String :=
  ["formatting error: ", "regex error: ", "chrono parse error: ",
   "json conversion error: ", "yaml conversion error: "]

/-- Projection of the payload out of the `Fmt` variant. -/
def Error.fmtPayload {feat : Features} : Error feat → Option FmtError
  | .Fmt err => some err
  | _ => none

/-- Projection of the payload out of the `RegEx` variant. -/
def Error.regexPayload {feat : Features} : Error feat → Option RegexError
  | .RegEx err => some err
  | _ => none

/-- Projection of the payload out of the `Chrono` variant. -/
def Error.chronoPayload {feat : Features} : Error feat → Option ChronoParseError
  | .Chrono err => some err
  | _ => none

/-- Projection of the payload out of the `Json` variant. -/
def Error.jsonPayload {feat : Features} : Error feat → Option JsonError
  | .Json _ err => some err
  | _ => none

/-- Projection of the payload out of the `Yaml` variant. -/
def Error.yamlPayload {feat : Features} : Error feat → Option YamlError
  | .Yaml _ err => some err
  | _ => none

/-- Whether a value is of the `Json` category. -/
def Error.isJson {feat : Features} : Error feat → Bool
  | .Json _ _ => true
  | _ => false

/-- Whether a value is of the `Yaml` category. -/
def Error.isYaml {feat : Features} : Error feat → Bool
  | .Yaml _ _ => true
  | _ => false

/-- The string `p` is a prefix of the string `s`. -/
def strIsPre (p s : String) : Prop := ∃ t : String, s = p ++ t

/-- Boolean prefix test on lists. -/
def listPre {α : Type} [DecidableEq α] : List α → List α → Bool
  | [], _ => true
  | _ :: _, [] => false
  | a :: as, b :: bs => if a = b then listPre as bs else false

/-! Helper lemmas shared by the theorems below. -/

/-- A trait-object error is never a strict subterm of itself: an error whose
`source` is `d` cannot itself be `d`. -/
lemma dynError_no_fix (m : String) (d : DynError) : DynError.mk m (some d) ≠ d := by
  intro h
  have hs := congrArg sizeOf h
  simp at hs
  omega

/-- Shared shape of the per-category `cause` facts: delegation returns the
payload's own source, which is never the payload itself. -/
lemma causeSpecAux (m : String) (s : Option DynError) :
    (s = none → s = none) ∧ ∀ d, s = some d → d ≠ DynError.mk m s := by
  refine ⟨fun h => h, ?_⟩
  intro d hd h
  rw [hd] at h
  exact dynError_no_fix m d h.symm

/-- Characterisation of `listPre` as existence of a list completing the prefix. -/
lemma listPre_iff {α : Type} [DecidableEq α] :
    ∀ l₁ l₂ : List α, listPre l₁ l₂ = true ↔ ∃ r, l₂ = l₁ ++ r := by
  intro l₁
  induction l₁ with
  | nil => intro l₂; simp [listPre]
  | cons a as ih =>
    intro l₂
    cases l₂ with
    | nil => simp [listPre]
    | cons b bs =>
      simp only [listPre]
      by_cases hab : a = b
      · subst hab
        simp [ih bs]
      · have hba : ¬ b = a := fun hh => hab hh.symm
        simp [hab, hba]

/-- String prefixhood coincides with the boolean prefix test on the
underlying character lists. -/
lemma strIsPre_iff (p s : String) : strIsPre p s ↔ listPre p.data s.data = true := by
  rw [listPre_iff]
  constructor
  · rintro ⟨t, rfl⟩
    exact ⟨t.data, rfl⟩
  · rintro ⟨r, h⟩
    exact ⟨⟨r⟩, congrArg String.mk h⟩

/-- Strings starting with different characters rule out prefixhood, whatever
follows the first string. -/
lemma not_strIsPre_head {p q a : String} {c d : Char}
    (hp : p.data.head? = some c) (hq : q.data.head? = some d) (hcd : c ≠ d) :
    ¬ strIsPre q (p ++ a) := by
  rintro ⟨t, ht⟩
  have hdata : p.data ++ a.data = q.data ++ t.data := congrArg String.data ht
  cases hpd : p.data with
  | nil => rw [hpd] at hp; exact Option.noConfusion hp
  | cons x xs =>
    cases hqd : q.data with
    | nil => rw [hqd] at hq; exact Option.noConfusion hq
    | cons y ys =>
      rw [hpd, hqd] at hdata
      rw [hpd] at hp
      rw [hqd] at hq
      simp at hp hq
      apply hcd
      rw [← hp, ← hq]
      exact (List.cons.injEq _ _ _ _ ▸ hdata).1

/-- Unfolding of `describe` on the `Fmt` variant. -/
lemma describe_Fmt (feat : Features) (err : FmtError) :
    (Error.Fmt err : Error feat).describe = "formatting error: " ++ err.message := rfl

/-- Unfolding of `describe` on the `RegEx` variant. -/
lemma describe_RegEx (feat : Features) (err : RegexError) :
    (Error.RegEx err : Error feat).describe = "regex error: " ++ err.message := rfl

/-- Unfolding of `describe` on the `Chrono` variant. -/
lemma describe_Chrono (feat : Features) (err : ChronoParseError) :
    (Error.Chrono err : Error feat).describe = "chrono parse error: " ++ err.message := rfl

/-- Unfolding of `describe` on the `Json` variant. -/
lemma describe_Json (feat : Features) (h : feat.serde_json = true) (err : JsonError) :
    (Error.Json h err : Error feat).describe = "json conversion error: " ++ err.message := rfl

/-- Unfolding of `describe` on the `Yaml` variant. -/
lemma describe_Yaml (feat : Features) (h : feat.serde_yaml = true) (err : YamlError) :
    (Error.Yaml h err : Error feat).describe = "yaml conversion error: " ++ err.message := rfl

/-- C1: for every category of the aggregate and every underlying error wrapped
in it, `describe()` returns exactly the category's fixed label from the §4.1
table concatenated with the underlying error's own textual description,
inserted verbatim with no other transformation. -/
theorem spec_C1 (feat : Features) :
    (∀ err : FmtError,
      (Error.Fmt err : Error feat).describe = "formatting error: " ++ err.message)
  ∧ (∀ err : RegexError,
      (Error.RegEx err : Error feat).describe = "regex error: " ++ err.message)
  ∧ (∀ err : ChronoParseError,
      (Error.Chrono err : Error feat).describe = "chrono parse error: " ++ err.message)
  ∧ (∀ (h : feat.serde_json = true) (err : JsonError),
      (Error.Json h err : Error feat).describe = "json conversion error: " ++ err.message)
  ∧ (∀ (h : feat.serde_yaml = true) (err : YamlError),
      (Error.Yaml h err : Error feat).describe = "yaml conversion error: " ++ err.message) :=
  ⟨fun _ => rfl, fun _ => rfl, fun _ => rfl, fun _ _ => rfl, fun _ _ => rfl⟩

/-- Witness for C1 at concrete inputs, including the spec's own example. -/
theorem spec_C1_witness :
    (Error.Fmt ⟨"an error occurred when formatting an argument", none⟩
        : Error ⟨true, true⟩).describe
      = "formatting error: " ++ "an error occurred when formatting an argument"
  ∧ (Error.Json rfl ⟨"unexpected end of input", none⟩ : Error ⟨true, true⟩).describe
      = "json conversion error: " ++ "unexpected end of input" :=
  ⟨(spec_C1 ⟨true, true⟩).1 ⟨"an error occurred when formatting an argument", none⟩,
   (spec_C1 ⟨true, true⟩).2.2.2.1 rfl ⟨"unexpected end of input", none⟩⟩

/-- C2: on every category, `cause()` returns exactly the wrapped payload's own
source lookup — one level of delegation beyond the payload, never the wrapped
payload itself — and returns `none` when the payload has no nested cause. -/
theorem spec_C2 (feat : Features) :
    (∀ err : FmtError,
      (Error.Fmt err : Error feat).cause = err.src
      ∧ (err.src = none → (Error.Fmt err : Error feat).cause = none)
      ∧ ∀ d, (Error.Fmt err : Error feat).cause = some d → d ≠ err.toDyn)
  ∧ (∀ err : RegexError,
      (Error.RegEx err : Error feat).cause = err.src
      ∧ (err.src = none → (Error.RegEx err : Error feat).cause = none)
      ∧ ∀ d, (Error.RegEx err : Error feat).cause = some d → d ≠ err.toDyn)
  ∧ (∀ err : ChronoParseError,
      (Error.Chrono err : Error feat).cause = err.src
      ∧ (err.src = none → (Error.Chrono err : Error feat).cause = none)
      ∧ ∀ d, (Error.Chrono err : Error feat).cause = some d → d ≠ err.toDyn)
  ∧ (∀ (h : feat.serde_json = true) (err : JsonError),
      (Error.Json h err : Error feat).cause = err.src
      ∧ (err.src = none → (Error.Json h err : Error feat).cause = none)
      ∧ ∀ d, (Error.Json h err : Error feat).cause = some d → d ≠ err.toDyn)
  ∧ (∀ (h : feat.serde_yaml = true) (err : YamlError),
      (Error.Yaml h err : Error feat).cause = err.src
      ∧ (err.src = none → (Error.Yaml h err : Error feat).cause = none)
      ∧ ∀ d, (Error.Yaml h err : Error feat).cause = some d → d ≠ err.toDyn) :=
  ⟨fun err => ⟨rfl, (causeSpecAux err.message err.src).1, (causeSpecAux err.message err.src).2⟩,
   fun err => ⟨rfl, (causeSpecAux err.message err.src).1, (causeSpecAux err.message err.src).2⟩,
   fun err => ⟨rfl, (causeSpecAux err.message err.src).1, (causeSpecAux err.message err.src).2⟩,
   fun _ err => ⟨rfl, (causeSpecAux err.message err.src).1, (causeSpecAux err.message err.src).2⟩,
   fun _ err => ⟨rfl, (causeSpecAux err.message err.src).1, (causeSpecAux err.message err.src).2⟩⟩

/-- Witness for C2 at concrete inputs: a payload with a nested cause and a
payload without one. -/
theorem spec_C2_witness :
    (Error.RegEx ⟨"top", some (DynError.mk "inner" none)⟩ : Error ⟨true, true⟩).cause
      = some (DynError.mk "inner" none)
  ∧ (Error.Fmt ⟨"plain", none⟩ : Error ⟨true, true⟩).cause = none :=
  ⟨((spec_C2 ⟨true, true⟩).2.1 ⟨"top", some (DynError.mk "inner" none)⟩).1,
   ((spec_C2 ⟨true, true⟩).1 ⟨"plain", none⟩).2.1 rfl⟩

/-- C3: conversion from each underlying error type is a total, infallible,
lossless wrap: the result is exactly the matching variant holding the payload
unchanged, its category matches the source type, and `describe()`/`cause()` on
the result agree with the behaviour for that same underlying value. -/
theorem spec_C3 (feat : Features) :
    (∀ err : FmtError,
      (Error.fromFmt err : Error feat) = Error.Fmt err
      ∧ (Error.fromFmt err : Error feat).category = Category.Fmt
      ∧ (Error.fromFmt err : Error feat).describe = "formatting error: " ++ err.message
      ∧ (Error.fromFmt err : Error feat).cause = err.src)
  ∧ (∀ err : RegexError,
      (Error.fromRegex err : Error feat) = Error.RegEx err
      ∧ (Error.fromRegex err : Error feat).category = Category.RegEx
      ∧ (Error.fromRegex err : Error feat).describe = "regex error: " ++ err.message
      ∧ (Error.fromRegex err : Error feat).cause = err.src)
  ∧ (∀ err : ChronoParseError,
      (Error.fromChrono err : Error feat) = Error.Chrono err
      ∧ (Error.fromChrono err : Error feat).category = Category.Chrono
      ∧ (Error.fromChrono err : Error feat).describe = "chrono parse error: " ++ err.message
      ∧ (Error.fromChrono err : Error feat).cause = err.src)
  ∧ (∀ (h : feat.serde_json = true) (err : JsonError),
      Error.fromJson h err = Error.Json h err
      ∧ (Error.fromJson h err).category = Category.Json
      ∧ (Error.fromJson h err).describe = "json conversion error: " ++ err.message
      ∧ (Error.fromJson h err).cause = err.src)
  ∧ (∀ (h : feat.serde_yaml = true) (err : YamlError),
      Error.fromYaml h err = Error.Yaml h err
      ∧ (Error.fromYaml h err).category = Category.Yaml
      ∧ (Error.fromYaml h err).describe = "yaml conversion error: " ++ err.message
      ∧ (Error.fromYaml h err).cause = err.src) :=
  ⟨fun _ => ⟨rfl, rfl, rfl, rfl⟩, fun _ => ⟨rfl, rfl, rfl, rfl⟩,
   fun _ => ⟨rfl, rfl, rfl, rfl⟩, fun _ _ => ⟨rfl, rfl, rfl, rfl⟩,
   fun _ _ => ⟨rfl, rfl, rfl, rfl⟩⟩

/-- Witness for C3 at concrete inputs. -/
theorem spec_C3_witness :
    (Error.fromChrono ⟨"input contains invalid characters", none⟩ : Error ⟨true, true⟩)
      = Error.Chrono ⟨"input contains invalid characters", none⟩
  ∧ (Error.fromYaml (rfl : (Features.mk true true).serde_yaml = true) ⟨"bad yaml", none⟩).category
      = Category.Yaml :=
  ⟨((spec_C3 ⟨true, true⟩).2.2.1 ⟨"input contains invalid characters", none⟩).1,
   ((spec_C3 ⟨true, true⟩).2.2.2.2 rfl ⟨"bad yaml", none⟩).2.1⟩

/-- C4: rendering is deterministic and side-effect-free: formatting an error
into any formatter only appends the rendered message, which depends on the
error value alone, and two invocations on formatters in the same state produce
the same result. -/
theorem spec_C4 (feat : Features) (e : Error feat) (f f' : Formatter) :
    (e.fmt f).buf = f.buf ++ e.describe ∧ (f.buf = f'.buf → e.fmt f = e.fmt f') := by
  cases e <;>
    exact ⟨rfl, fun h => by simp [Error.fmt, Formatter.writeStr, h]⟩

/-- Witness for C4 at concrete inputs. -/
theorem spec_C4_witness :
    ((Error.Fmt ⟨"m", none⟩ : Error ⟨true, true⟩).fmt ⟨"log: "⟩).buf
      = "log: " ++ (Error.Fmt ⟨"m", none⟩ : Error ⟨true, true⟩).describe
  ∧ (Error.Fmt ⟨"m", none⟩ : Error ⟨true, true⟩).fmt ⟨"log: "⟩
      = (Error.Fmt ⟨"m", none⟩ : Error ⟨true, true⟩).fmt ⟨"log: "⟩ :=
  ⟨(spec_C4 ⟨true, true⟩ (Error.Fmt ⟨"m", none⟩) ⟨"log: "⟩ ⟨"log: "⟩).1,
   (spec_C4 ⟨true, true⟩ (Error.Fmt ⟨"m", none⟩) ⟨"log: "⟩ ⟨"log: "⟩).2 rfl⟩

/-- C5: the aggregate has no error conditions of its own: `describe()` and
`cause()` are total functions that always return a value, and every value of
the type is in the valid state of holding exactly one payload of one
category. -/
theorem spec_C5 (feat : Features) (e : Error feat) :
    (∃ s : String, e.describe = s)
  ∧ (∃ c : Option DynError, e.cause = c)
  ∧ ((∃ err, e = Error.Fmt err) ∨ (∃ err, e = Error.RegEx err)
      ∨ (∃ err, e = Error.Chrono err)
      ∨ (∃ h err, e = Error.Json h err) ∨ (∃ h err, e = Error.Yaml h err)) := by
  refine ⟨⟨e.describe, rfl⟩, ⟨e.cause, rfl⟩, ?_⟩
  cases e with
  | Fmt err => exact Or.inl ⟨err, rfl⟩
  | RegEx err => exact Or.inr (Or.inl ⟨err, rfl⟩)
  | Chrono err => exact Or.inr (Or.inr (Or.inl ⟨err, rfl⟩))
  | Json h err => exact Or.inr (Or.inr (Or.inr (Or.inl ⟨h, err, rfl⟩)))
  | Yaml h err => exact Or.inr (Or.inr (Or.inr (Or.inr ⟨h, err, rfl⟩)))

/-- Witness for C5 at a concrete input. -/
theorem spec_C5_witness :
    (∃ s : String, (Error.RegEx ⟨"bad pattern", none⟩ : Error ⟨true, true⟩).describe = s)
  ∧ (∃ c : Option DynError, (Error.RegEx ⟨"bad pattern", none⟩ : Error ⟨true, true⟩).cause = c)
  ∧ ((∃ err, (Error.RegEx ⟨"bad pattern", none⟩ : Error ⟨true, true⟩) = Error.Fmt err)
      ∨ (∃ err, (Error.RegEx ⟨"bad pattern", none⟩ : Error ⟨true, true⟩) = Error.RegEx err)
      ∨ (∃ err, (Error.RegEx ⟨"bad pattern", none⟩ : Error ⟨true, true⟩) = Error.Chrono err)
      ∨ (∃ h err, (Error.RegEx ⟨"bad pattern", none⟩ : Error ⟨true, true⟩) = Error.Json h err)
      ∨ (∃ h err, (Error.RegEx ⟨"bad pattern", none⟩ : Error ⟨true, true⟩) = Error.Yaml h err)) :=
  spec_C5 ⟨true, true⟩ (Error.RegEx ⟨"bad pattern", none⟩)

/-- C7: the conditionally compiled categories are constructible if and only if
the corresponding feature switch is enabled, and when enabled the dedicated
conversion produces exactly that category. -/
theorem spec_C7 (feat : Features) :
    ((∃ e : Error feat, e.isJson = true) ↔ feat.serde_json = true)
  ∧ ((∃ e : Error feat, e.isYaml = true) ↔ feat.serde_yaml = true)
  ∧ (∀ (h : feat.serde_json = true) (err : JsonError), (Error.fromJson h err).isJson = true)
  ∧ (∀ (h : feat.serde_yaml = true) (err : YamlError), (Error.fromYaml h err).isYaml = true) := by
  refine ⟨⟨?_, ?_⟩, ⟨?_, ?_⟩, fun _ _ => rfl, fun _ _ => rfl⟩
  · rintro ⟨e, he⟩
    cases e with
    | Fmt err => exact Bool.noConfusion he
    | RegEx err => exact Bool.noConfusion he
    | Chrono err => exact Bool.noConfusion he
    | Json h err => exact h
    | Yaml h err => exact Bool.noConfusion he
  · intro h
    exact ⟨Error.Json h ⟨"", none⟩, rfl⟩
  · rintro ⟨e, he⟩
    cases e with
    | Fmt err => exact Bool.noConfusion he
    | RegEx err => exact Bool.noConfusion he
    | Chrono err => exact Bool.noConfusion he
    | Json h err => exact Bool.noConfusion he
    | Yaml h err => exact h
  · intro h
    exact ⟨Error.Yaml h ⟨"", none⟩, rfl⟩

/-- Witness for C7: with both switches on, both gated categories are
constructible. -/
theorem spec_C7_witness :
    (∃ e : Error ⟨true, true⟩, e.isJson = true) ∧ (∃ e : Error ⟨true, true⟩, e.isYaml = true) :=
  ⟨(spec_C7 ⟨true, true⟩).1.mpr rfl, (spec_C7 ⟨true, true⟩).2.1.mpr rfl⟩

/-- C8: the aggregate is a genuine sum type: every value is built from exactly
one of the five variants holding exactly one payload, and values of distinct
variants are never equal. -/
theorem spec_C8 (feat : Features) :
    (∀ e : Error feat,
      (∃ err, e = Error.Fmt err) ∨ (∃ err, e = Error.RegEx err)
        ∨ (∃ err, e = Error.Chrono err)
        ∨ (∃ h err, e = Error.Json h err) ∨ (∃ h err, e = Error.Yaml h err))
  ∧ (∀ (a : FmtError) (b : RegexError), (Error.Fmt a : Error feat) ≠ Error.RegEx b)
  ∧ (∀ (a : FmtError) (b : ChronoParseError), (Error.Fmt a : Error feat) ≠ Error.Chrono b)
  ∧ (∀ (a : FmtError) (h : feat.serde_json = true) (b : JsonError),
      (Error.Fmt a : Error feat) ≠ Error.Json h b)
  ∧ (∀ (a : FmtError) (h : feat.serde_yaml = true) (b : YamlError),
      (Error.Fmt a : Error feat) ≠ Error.Yaml h b)
  ∧ (∀ (a : RegexError) (b : ChronoParseError), (Error.RegEx a : Error feat) ≠ Error.Chrono b)
  ∧ (∀ (a : RegexError) (h : feat.serde_json = true) (b : JsonError),
      (Error.RegEx a : Error feat) ≠ Error.Json h b)
  ∧ (∀ (a : RegexError) (h : feat.serde_yaml = true) (b : YamlError),
      (Error.RegEx a : Error feat) ≠ Error.Yaml h b)
  ∧ (∀ (a : ChronoParseError) (h : feat.serde_json = true) (b : JsonError),
      (Error.Chrono a : Error feat) ≠ Error.Json h b)
  ∧ (∀ (a : ChronoParseError) (h : feat.serde_yaml = true) (b : YamlError),
      (Error.Chrono a : Error feat) ≠ Error.Yaml h b)
  ∧ (∀ (hj : feat.serde_json = true) (a : JsonError) (hy : feat.serde_yaml = true)
      (b : YamlError), (Error.Json hj a : Error feat) ≠ Error.Yaml hy b) := by
  refine ⟨?_, fun a b hh => Error.noConfusion hh, fun a b hh => Error.noConfusion hh,
    fun a h b hh => Error.noConfusion hh, fun a h b hh => Error.noConfusion hh,
    fun a b hh => Error.noConfusion hh, fun a h b hh => Error.noConfusion hh,
    fun a h b hh => Error.noConfusion hh, fun a h b hh => Error.noConfusion hh,
    fun a h b hh => Error.noConfusion hh, fun hj a hy b hh => Error.noConfusion hh⟩
  intro e
  cases e with
  | Fmt err => exact Or.inl ⟨err, rfl⟩
  | RegEx err => exact Or.inr (Or.inl ⟨err, rfl⟩)
  | Chrono err => exact Or.inr (Or.inr (Or.inl ⟨err, rfl⟩))
  | Json h err => exact Or.inr (Or.inr (Or.inr (Or.inl ⟨h, err, rfl⟩)))
  | Yaml h err => exact Or.inr (Or.inr (Or.inr (Or.inr ⟨h, err, rfl⟩)))

/-- Witness for C8 at concrete inputs. -/
theorem spec_C8_witness :
    ((∃ err, (Error.Chrono ⟨"c", none⟩ : Error ⟨true, true⟩) = Error.Fmt err)
      ∨ (∃ err, (Error.Chrono ⟨"c", none⟩ : Error ⟨true, true⟩) = Error.RegEx err)
      ∨ (∃ err, (Error.Chrono ⟨"c", none⟩ : Error ⟨true, true⟩) = Error.Chrono err)
      ∨ (∃ h err, (Error.Chrono ⟨"c", none⟩ : Error ⟨true, true⟩) = Error.Json h err)
      ∨ (∃ h err, (Error.Chrono ⟨"c", none⟩ : Error ⟨true, true⟩) = Error.Yaml h err))
  ∧ (Error.Fmt ⟨"x", none⟩ : Error ⟨true, true⟩) ≠ Error.RegEx ⟨"x", none⟩ :=
  ⟨(spec_C8 ⟨true, true⟩).1 (Error.Chrono ⟨"c", none⟩),
   (spec_C8 ⟨true, true⟩).2.1 ⟨"x", none⟩ ⟨"x", none⟩⟩

/-- C9: wrapping is the identity on the payload: projecting the payload back
out of a converted value yields exactly the original underlying error, and
each conversion is injective. -/
theorem spec_C9 (feat : Features) :
    (∀ err : FmtError, (Error.fromFmt err : Error feat).fmtPayload = some err)
  ∧ (∀ err : RegexError, (Error.fromRegex err : Error feat).regexPayload = some err)
  ∧ (∀ err : ChronoParseError, (Error.fromChrono err : Error feat).chronoPayload = some err)
  ∧ (∀ (h : feat.serde_json = true) (err : JsonError),
      (Error.fromJson h err).jsonPayload = some err)
  ∧ (∀ (h : feat.serde_yaml = true) (err : YamlError),
      (Error.fromYaml h err).yamlPayload = some err)
  ∧ (∀ a b : FmtError, (Error.fromFmt a : Error feat) = Error.fromFmt b → a = b)
  ∧ (∀ a b : RegexError, (Error.fromRegex a : Error feat) = Error.fromRegex b → a = b)
  ∧ (∀ a b : ChronoParseError, (Error.fromChrono a : Error feat) = Error.fromChrono b → a = b)
  ∧ (∀ (h h' : feat.serde_json = true) (a b : JsonError),
      Error.fromJson h a = Error.fromJson h' b → a = b)
  ∧ (∀ (h h' : feat.serde_yaml = true) (a b : YamlError),
      Error.fromYaml h a = Error.fromYaml h' b → a = b) := by
  refine ⟨fun _ => rfl, fun _ => rfl, fun _ => rfl, fun _ _ => rfl, fun _ _ => rfl,
    ?_, ?_, ?_, ?_, ?_⟩
  · intro a b hh
    injection hh
  · intro a b hh
    injection hh
  · intro a b hh
    injection hh
  · intro h h' a b hh
    injection hh
  · intro h h' a b hh
    injection hh

/-- Witness for C9 at concrete inputs. -/
theorem spec_C9_witness :
    (Error.fromFmt ⟨"w", some (DynError.mk "deep" none)⟩ : Error ⟨true, true⟩).fmtPayload
      = some ⟨"w", some (DynError.mk "deep" none)⟩
  ∧ (Error.fromJson (rfl : (Features.mk true true).serde_json = true) ⟨"j", none⟩).jsonPayload
      = some ⟨"j", none⟩ :=
  ⟨(spec_C9 ⟨true, true⟩).1 ⟨"w", some (DynError.mk "deep" none)⟩,
   (spec_C9 ⟨true, true⟩).2.2.2.1 rfl ⟨"j", none⟩⟩

/-- C10: the category is recoverable from the rendered message: every rendered
message begins with its own category's label, the five labels are pairwise
distinct and none is a prefix of another, and the rendering of a value never
begins with the label of a different category. -/
theorem spec_C10 (feat : Features) :
    (∀ e : Error feat, strIsPre e.category.tag e.describe)
  ∧ tags.Nodup
  ∧ (∀ t₁ ∈ tags, ∀ t₂ ∈ tags, t₁ ≠ t₂ → ¬ strIsPre t₁ t₂)
  ∧ (∀ e₁ e₂ : Error feat, e₁.category ≠ e₂.category →
      ¬ strIsPre e₂.category.tag e₁.describe) := by
  refine ⟨?_, by decide, ?_, ?_⟩
  · intro e
    cases e with
    | Fmt err => exact ⟨err.message, rfl⟩
    | RegEx err => exact ⟨err.message, rfl⟩
    | Chrono err => exact ⟨err.message, rfl⟩
    | Json h err => exact ⟨err.message, rfl⟩
    | Yaml h err => exact ⟨err.message, rfl⟩
  · simp only [strIsPre_iff]
    decide
  · intro e₁ e₂ hne
    cases e₁ <;> cases e₂ <;>
      simp only [Error.category, Category.tag, describe_Fmt, describe_RegEx, describe_Chrono,
        describe_Json, describe_Yaml] at hne ⊢ <;>
      first
        | exact absurd rfl hne
        | exact not_strIsPre_head rfl rfl (by decide)

/-- Witness for C10 at concrete inputs. -/
theorem spec_C10_witness :
    strIsPre (Error.Yaml rfl ⟨"y", none⟩ : Error ⟨true, true⟩).category.tag
      (Error.Yaml rfl ⟨"y", none⟩ : Error ⟨true, true⟩).describe
  ∧ ¬ strIsPre (Error.RegEx ⟨"r", none⟩ : Error ⟨true, true⟩).category.tag
      (Error.Fmt ⟨"m", none⟩ : Error ⟨true, true⟩).describe :=
  ⟨(spec_C10 ⟨true, true⟩).1 (Error.Yaml rfl ⟨"y", none⟩),
   (spec_C10 ⟨true, true⟩).2.2.2 (Error.Fmt ⟨"m", none⟩) (Error.RegEx ⟨"r", none⟩)
     (fun hh => Category.noConfusion hh)⟩

end Askama
